import Mathlib

/-!
Shallow embedding of `src/youtube_monitor.py`: a Prometheus-style metrics
registry (`YouTubeMetrics`) plus a polling worker (`YouTubeMonitor`) that
maps YouTube API responses onto metric updates.

Modelling conventions:
* A Prometheus metric family is a finite map from a label tuple to a value,
  represented as an association list (`SeriesMap`).  `labels(...).set(v)`
  overwrites (creating the series if absent); `labels(...).inc(d)` adds `d`
  to the current value, creating the series at 0 first when absent —
  exactly prometheus_client's behaviour.
* Gauge values are rationals (Python floats restricted to the exact
  arithmetic the program performs); counter values are naturals.
* An API call (`requests.get` + `response.json()` + the `int(...)`
  conversions of its fields) is modelled as an `Except Unit R` input: `.ok`
  carries the parsed response shape, `.error` stands for any exception
  raised while fetching or decoding (network error, timeout, malformed
  JSON, failed `int()` conversion).  A JSON object with no `items` key is
  modelled the same as one with an empty `items` list, since the Python
  guard `'items' in data and data['items']` treats them identically.
* `time.strftime(...)` timestamps are passed in as an explicit `now`
  argument; `print` logging is dropped (no observable state).
-/

/-- Label tuple for `stream_viewers`, `video_*`, `engagement_rate` and the
three counters. -/
structure BaseLabels where
  channel_id : String
  stream : String
  video_id : String
  channel_name : String
deriving DecidableEq, Repr

/-- Label tuple for `stream_status` (adds `environment`). -/
structure StatusLabels where
  channel_id : String
  stream : String
  video_id : String
  channel_name : String
  environment : String
deriving DecidableEq, Repr

/-- Label tuple for `channel_subscribers`. -/
structure ChannelLabels where
  channel_id : String
  stream : String
  channel_name : String
deriving DecidableEq, Repr

/-- Label tuple for the `channel_info` Info metric. -/
structure ChannelInfoLabels where
  channel_id : String
  channel_name : String
deriving DecidableEq, Repr

/-- Label tuple for the `video_info` Info metric. -/
structure VideoInfoLabels where
  video_id : String
  channel_id : String
  stream : String
deriving DecidableEq, Repr

/-- A metric family: finite map from label tuple to value, as an
association list. -/
abbrev SeriesMap (L V : Type) := List (L × V)

namespace SeriesMap

/-- Current value of a series, `none` when the series does not exist. -/
def get {L V : Type} [DecidableEq L] : SeriesMap L V → L → Option V
  | [], _ => none
  | (l', v) :: rest, l => if l = l' then some v else get rest l

/-- `labels(...).set(v)`: overwrite, creating the series when absent. -/
def set {L V : Type} [DecidableEq L] : SeriesMap L V → L → V → SeriesMap L V
  | [], l, v => [(l, v)]
  | (l', v') :: rest, l, v =>
    if l = l' then (l, v) :: rest else (l', v') :: set rest l v

/-- Counter value of a series; a series that does not exist reads 0. -/
def cval {L : Type} [DecidableEq L] (s : SeriesMap L Nat) (l : L) : Nat :=
  (get s l).getD 0

/-- `labels(...).inc(d)`: prometheus_client creates the series at 0 when
absent, then adds `d`. -/
def inc {L : Type} [DecidableEq L] (s : SeriesMap L Nat) (l : L) (d : Nat) :
    SeriesMap L Nat :=
  set s l (cval s l + d)

end SeriesMap

/-- The field map stored by an Info metric series. -/
abbrev InfoMap := List (String × String)

/-- State of the `YouTubeMetrics` registry: one series map per declared
metric family, plus the set of registered stream keys. -/
structure YouTubeMetrics where
  stream_status : SeriesMap StatusLabels ℚ
  stream_viewers : SeriesMap BaseLabels ℚ
  video_views : SeriesMap BaseLabels ℚ
  video_likes : SeriesMap BaseLabels ℚ
  video_comments : SeriesMap BaseLabels ℚ
  video_favorites : SeriesMap BaseLabels ℚ
  engagement_rate : SeriesMap BaseLabels ℚ
  channel_subscribers : SeriesMap ChannelLabels ℚ
  check_count : SeriesMap BaseLabels Nat
  error_count : SeriesMap BaseLabels Nat
  api_errors : SeriesMap BaseLabels Nat
  channel_info : SeriesMap ChannelInfoLabels InfoMap
  video_info : SeriesMap VideoInfoLabels InfoMap
  registered_streams : List String

/-- `YouTubeMetrics.__init__`: every family empty, no stream registered. -/
def YouTubeMetrics.empty : YouTubeMetrics :=
  ⟨[], [], [], [], [], [], [], [], [], [], [], [], [], []⟩

/-- `initialize_counters(labels)`: `inc(0)` on the three counters, making
each series visible at value 0 without changing an existing value. -/
def YouTubeMetrics.initialize_counters (m : YouTubeMetrics)
    (labels : BaseLabels) : YouTubeMetrics :=
  { m with
    api_errors := m.api_errors.inc labels 0
    check_count := m.check_count.inc labels 0
    error_count := m.error_count.inc labels 0 }

/-- `register_stream`: no-op when `stream_key` is already registered;
otherwise zero every gauge series for the entity, make the counter series
visible via `initialize_counters`, and record the key. -/
def YouTubeMetrics.register_stream (m : YouTubeMetrics)
    (channel_id video_id stream_name channel_name : String)
    (environment : String := "Production") : YouTubeMetrics :=
  let stream_key := channel_id ++ "_" ++ video_id ++ "_" ++ stream_name
  if stream_key ∈ m.registered_streams then m
  else
    let base_labels : BaseLabels :=
      ⟨channel_id, stream_name, video_id, channel_name⟩
    let status_labels : StatusLabels :=
      ⟨channel_id, stream_name, video_id, channel_name, environment⟩
    let channel_labels : ChannelLabels :=
      ⟨channel_id, stream_name, channel_name⟩
    let m := { m with
      stream_status := m.stream_status.set status_labels 0
      stream_viewers := m.stream_viewers.set base_labels 0
      video_views := m.video_views.set base_labels 0
      video_likes := m.video_likes.set base_labels 0
      video_comments := m.video_comments.set base_labels 0
      video_favorites := m.video_favorites.set base_labels 0
      engagement_rate := m.engagement_rate.set base_labels 0
      channel_subscribers := m.channel_subscribers.set channel_labels 0 }
    let m := m.initialize_counters base_labels
    { m with registered_streams := stream_key :: m.registered_streams }

/-- One monitored stream's identity (`YouTubeMonitor.__init__` fields). -/
structure YouTubeMonitor where
  channel_id : String
  video_id : String
  stream_name : String
  channel_name : String
  environment : String
deriving DecidableEq, Repr

/-- `self.base_labels` built in `YouTubeMonitor.__init__`. -/
def YouTubeMonitor.base_labels (mon : YouTubeMonitor) : BaseLabels :=
  ⟨mon.channel_id, mon.stream_name, mon.video_id, mon.channel_name⟩

/-- `self.status_labels` built in `YouTubeMonitor.__init__`. -/
def YouTubeMonitor.status_labels (mon : YouTubeMonitor) : StatusLabels :=
  ⟨mon.channel_id, mon.stream_name, mon.video_id, mon.channel_name,
    mon.environment⟩

/-- `self.channel_labels` built in `YouTubeMonitor.__init__`. -/
def YouTubeMonitor.channel_labels (mon : YouTubeMonitor) : ChannelLabels :=
  ⟨mon.channel_id, mon.stream_name, mon.channel_name⟩

/-- Python `str(bool)` as used in the `video_info` record. -/
def pyStr (b : Bool) : String := if b then "True" else "False"

/-- Parsed `snippet` object of a video-details item. `none` fields model
absent JSON keys (read through `.get`). -/
structure VideoSnippet where
  liveBroadcastContent : Option String
  title : Option String
deriving DecidableEq, Repr

/-- One element of `data['items']` for the video-details call.
`concurrentViewers` is `some n` exactly when both `liveStreamingDetails`
and its `concurrentViewers` key are present (already `int`-converted; a
conversion failure is part of the `.error` case of the call). -/
structure VideoDetailsItem where
  snippet : Option VideoSnippet
  concurrentViewers : Option Nat
deriving DecidableEq, Repr

/-- Decoded JSON of the video-details call; a missing `items` key is
modelled as the empty list (the Python guard treats both alike). -/
structure VideoDetailsResponse where
  items : List VideoDetailsItem
deriving DecidableEq, Repr

/-- Result triple of `check_stream_status`. -/
structure CheckResult where
  is_live : Bool
  viewer_count : Nat
  video_title : String
deriving DecidableEq, Repr

/-- `check_stream_status`: increment `check_count` first, then branch on the
API call.  Success path: compute `is_live`, `viewer_count`, `video_title`
from the first item (defaults `False`/0/`""`), record `video_info`, set
`stream_status` and `stream_viewers`, and increment `error_count` when not
live.  Exception path (`except`): set `stream_status` to 0, increment
`error_count` and `api_errors`, return `(False, 0, "")`. -/
def check_stream_status (mon : YouTubeMonitor) (m : YouTubeMetrics)
    (api : Except Unit VideoDetailsResponse) (now : String) :
    YouTubeMetrics × CheckResult :=
  let m := { m with check_count := m.check_count.inc mon.base_labels 1 }
  match api with
  | .error _ =>
    let m := { m with
      stream_status := m.stream_status.set mon.status_labels 0
      error_count := m.error_count.inc mon.base_labels 1
      api_errors := m.api_errors.inc mon.base_labels 1 }
    (m, ⟨false, 0, ""⟩)
  | .ok data =>
    let st : Bool × Nat × String :=
      match data.items with
      | [] => (false, 0, "")
      | item :: _ =>
        let is_live :=
          match item.snippet with
          | some sn => sn.liveBroadcastContent = some "live"
          | none => false
        let video_title :=
          match item.snippet with
          | some sn => sn.title.getD "No title"
          | none => ""
        let viewer_count := item.concurrentViewers.getD 0
        (is_live, viewer_count, video_title)
    let is_live := st.1
    let viewer_count := st.2.1
    let video_title := st.2.2
    let m := { m with
      video_info := m.video_info.set
        ⟨mon.video_id, mon.channel_id, mon.stream_name⟩
        [("title", video_title), ("is_live", pyStr is_live),
         ("last_updated", now)] }
    let m := { m with
      stream_status :=
        m.stream_status.set mon.status_labels (if is_live then 1 else 0)
      stream_viewers :=
        m.stream_viewers.set mon.base_labels (viewer_count : ℚ) }
    let m :=
      if is_live then m
      else { m with error_count := m.error_count.inc mon.base_labels 1 }
    (m, ⟨is_live, viewer_count, video_title⟩)

/-- Parsed `statistics` object of the video-statistics call; `none` models
a missing key, read through `stats.get(key, 0)`. -/
structure VideoStatistics where
  viewCount : Option Nat
  likeCount : Option Nat
  commentCount : Option Nat
  favoriteCount : Option Nat
deriving DecidableEq, Repr

/-- Decoded JSON of the video-statistics call: `items`, each carrying its
`statistics` object (an item without one raises and is part of the
`.error` case). -/
structure EngagementResponse where
  items : List VideoStatistics
deriving DecidableEq, Repr

/-- `get_video_engagement`.  With a non-empty `items` list: set the four
gauges (missing fields default 0), set `engagement_rate = likes/views*100`
only when `views > 0`, return `(views, likes, comments)`.  With empty
`items`: fall through, touch nothing, return `None` (modelled `none`).
Exception path: increment `api_errors`, return `(0, 0, 0)`. -/
def get_video_engagement (mon : YouTubeMonitor) (m : YouTubeMetrics)
    (api : Except Unit EngagementResponse) :
    YouTubeMetrics × Option (Nat × Nat × Nat) :=
  match api with
  | .error _ =>
    ({ m with api_errors := m.api_errors.inc mon.base_labels 1 },
      some (0, 0, 0))
  | .ok data =>
    match data.items with
    | [] => (m, none)
    | stats :: _ =>
      let views := stats.viewCount.getD 0
      let likes := stats.likeCount.getD 0
      let comments := stats.commentCount.getD 0
      let favorites := stats.favoriteCount.getD 0
      let m := { m with
        video_views := m.video_views.set mon.base_labels (views : ℚ)
        video_likes := m.video_likes.set mon.base_labels (likes : ℚ)
        video_comments :=
          m.video_comments.set mon.base_labels (comments : ℚ)
        video_favorites :=
          m.video_favorites.set mon.base_labels (favorites : ℚ) }
      let rate : ℚ := ((likes : ℚ) / (views : ℚ)) * 100
      let m :=
        if views > 0 then
          { m with
            engagement_rate := m.engagement_rate.set mon.base_labels rate }
        else m
      (m, some (views, likes, comments))

/-- Parsed item of the channels call: `statistics` (required — absence
raises into the `.error` case) and `snippet` read through `.get`. -/
structure ChannelItem where
  subscriberCount : Option Nat
  title : Option String
  description : Option String
deriving DecidableEq, Repr

/-- Decoded JSON of the channels call. -/
structure ChannelResponse where
  items : List ChannelItem
deriving DecidableEq, Repr

/-- The `channel_info` description field:
`snippet.get('description', '')[:100] + '...'`. -/
def truncateDescription (description : String) : String :=
  description.take 100 ++ "..."

/-- `get_channel_info`.  With a non-empty `items` list: set
`channel_subscribers`, replace the `channel_info` record (title, truncated
description, subscriber count, timestamp), return the subscriber count.
With empty `items`: fall through, touch nothing, return `None`.  Exception
path: increment `api_errors`, return 0. -/
def get_channel_info (mon : YouTubeMonitor) (m : YouTubeMetrics)
    (api : Except Unit ChannelResponse) (now : String) :
    YouTubeMetrics × Option Nat :=
  match api with
  | .error _ =>
    ({ m with api_errors := m.api_errors.inc mon.base_labels 1 }, some 0)
  | .ok data =>
    match data.items with
    | [] => (m, none)
    | item :: _ =>
      let subscriber_count := item.subscriberCount.getD 0
      let m := { m with
        channel_subscribers := m.channel_subscribers.set mon.channel_labels
          (subscriber_count : ℚ) }
      let m := { m with
        channel_info := m.channel_info.set
          ⟨mon.channel_id, mon.channel_name⟩
          [("title", item.title.getD ""),
           ("description", truncateDescription (item.description.getD "")),
           ("subscriber_count", toString subscriber_count),
           ("last_updated", now)] }
      (m, some subscriber_count)

/-- The three sub-operations a `monitor_loop` tick may invoke. -/
inductive SubOp where
  | checkStatus
  | engagement
  | channelInfo
deriving DecidableEq, Repr

/-- `engagement_interval = 5` in `monitor_loop`. -/
def engagement_interval : Nat := 5

/-- `channel_interval = 10` in `monitor_loop`. -/
def channel_interval : Nat := 10

/-- The sub-operations one `monitor_loop` iteration invokes, in order:
`check_stream_status` unconditionally, `get_video_engagement` when
`count % engagement_interval == 0`, `get_channel_info` when
`count % channel_interval == 0`. -/
def monitorTick (count : Nat) : List SubOp :=
  [SubOp.checkStatus] ++
  (if count % engagement_interval == 0 then [SubOp.engagement] else []) ++
  (if count % channel_interval == 0 then [SubOp.channelInfo] else [])

/-- Trace of `n` iterations of `monitor_loop` starting at tick counter
`count`: the loop body runs `monitorTick count`, then increments `count`
and (after the sleep) repeats. -/
def monitorTrace : Nat → Nat → List (Nat × List SubOp)
  | 0, _ => []
  | Nat.succ n, count => (count, monitorTick count) :: monitorTrace n (count + 1)

/-- One registry/worker operation, for reasoning about arbitrary
interleavings of the program's mutating entry points. -/
inductive RegistryOp where
  | register (channel_id video_id stream_name channel_name environment : String)
  | check (mon : YouTubeMonitor) (api : Except Unit VideoDetailsResponse)
      (now : String)
  | engagement (mon : YouTubeMonitor) (api : Except Unit EngagementResponse)
  | channelInfo (mon : YouTubeMonitor) (api : Except Unit ChannelResponse)
      (now : String)

/-- Apply one operation to the registry state (results discarded). -/
def applyOp (m : YouTubeMetrics) : RegistryOp → YouTubeMetrics
  | .register cid vid sname cname env =>
    m.register_stream cid vid sname cname env
  | .check mon api now => (check_stream_status mon m api now).1
  | .engagement mon api => (get_video_engagement mon m api).1
  | .channelInfo mon api now => (get_channel_info mon m api now).1

/-- Apply a sequence of operations left to right. -/
def applyOps (m : YouTubeMetrics) (ops : List RegistryOp) : YouTubeMetrics :=
  ops.foldl applyOp m

/-- Run `check_stream_status` once per element of `inputs`, threading the
registry state; each element supplies that invocation's API outcome and
timestamp. -/
def runChecks (mon : YouTubeMonitor) (m : YouTubeMetrics) :
    List (Except Unit VideoDetailsResponse × String) → YouTubeMetrics
  | [] => m
  | (api, now) :: rest =>
    runChecks mon (check_stream_status mon m api now).1 rest

namespace SeriesMap

theorem get_set {L V : Type} [DecidableEq L] (s : SeriesMap L V)
    (l l' : L) (v : V) :
    get (set s l v) l' = if l' = l then some v else get s l' := by
  induction s with
  | nil =>
    by_cases h : l' = l <;> simp [set, get, h]
  | cons hd tl ih =>
    obtain ⟨a, b⟩ := hd
    by_cases hla : l = a
    · subst hla
      by_cases h : l' = l <;> simp [set, get, h]
    · by_cases h : l' = a
      · subst h
        simp [set, get, hla, Ne.symm hla]
      · simp [set, get, hla, h, ih]

theorem get_set_self {L V : Type} [DecidableEq L] (s : SeriesMap L V)
    (l : L) (v : V) : get (set s l v) l = some v := by
  simp [get_set]

theorem get_set_ne {L V : Type} [DecidableEq L] (s : SeriesMap L V)
    {l l' : L} (v : V) (h : l' ≠ l) : get (set s l v) l' = get s l' := by
  simp [get_set, h]

theorem cval_inc {L : Type} [DecidableEq L] (s : SeriesMap L Nat)
    (l l' : L) (d : Nat) :
    cval (inc s l d) l' = if l' = l then cval s l + d else cval s l' := by
  by_cases h : l' = l
  · subst h; simp [cval, inc, get_set]
  · simp [cval, inc, get_set, h]

theorem cval_inc_self {L : Type} [DecidableEq L] (s : SeriesMap L Nat)
    (l : L) (d : Nat) : cval (inc s l d) l = cval s l + d := by
  simp [cval_inc]

theorem cval_le_cval_inc {L : Type} [DecidableEq L] (s : SeriesMap L Nat)
    (l l' : L) (d : Nat) : cval s l' ≤ cval (inc s l d) l' := by
  rw [cval_inc]
  by_cases h : l' = l <;> simp [h]

end SeriesMap

theorem check_stream_status_check_count (mon : YouTubeMonitor)
    (m : YouTubeMetrics) (api : Except Unit VideoDetailsResponse)
    (now : String) :
    (check_stream_status mon m api now).1.check_count
      = m.check_count.inc mon.base_labels 1 := by
  cases api with
  | error e => rfl
  | ok data =>
    unfold check_stream_status
    dsimp only
    split <;> rfl

/-- C1: every `check_stream_status` invocation increments
`stream_check_count` for the worker's entity by exactly one, success or
failure alike; hence any sequence of `N` invocations, with any mix of
outcomes, raises it by exactly `N`. -/
theorem C1_heartbeat (mon : YouTubeMonitor) (m : YouTubeMetrics)
    (inputs : List (Except Unit VideoDetailsResponse × String)) :
    (runChecks mon m inputs).check_count.cval mon.base_labels
      = m.check_count.cval mon.base_labels + inputs.length := by
  induction inputs generalizing m with
  | nil => simp [runChecks]
  | cons hd tl ih =>
    obtain ⟨api, now⟩ := hd
    rw [runChecks, ih, check_stream_status_check_count,
      SeriesMap.cval_inc_self]
    simp only [List.length_cons]
    omega

/-- C2: on an API failure (any exception raised while fetching or decoding
the response), `check_stream_status` sets `stream_status` to 0, increments
`stream_error_count` and `api_error_count` each by exactly 1, and returns
the no-data result `(False, 0, "")`; it never raises (the embedded
function is total). -/
theorem C2_api_failure (mon : YouTubeMonitor) (m : YouTubeMetrics)
    (now : String) :
    (check_stream_status mon m (Except.error ()) now).1.stream_status.get
        mon.status_labels = some 0 ∧
    (check_stream_status mon m (Except.error ()) now).1.error_count.cval
        mon.base_labels = m.error_count.cval mon.base_labels + 1 ∧
    (check_stream_status mon m (Except.error ()) now).1.api_errors.cval
        mon.base_labels = m.api_errors.cval mon.base_labels + 1 ∧
    (check_stream_status mon m (Except.error ()) now).2
      = ⟨false, 0, ""⟩ := by
  refine ⟨?_, ?_, ?_, rfl⟩ <;>
    simp [check_stream_status, SeriesMap.get_set_self,
      SeriesMap.cval_inc_self]

theorem check_ok_api_errors (mon : YouTubeMonitor) (m : YouTubeMetrics)
    (data : VideoDetailsResponse) (now : String) :
    (check_stream_status mon m (Except.ok data) now).1.api_errors
      = m.api_errors := by
  unfold check_stream_status
  dsimp only
  split <;> rfl

theorem check_ok_error_count (mon : YouTubeMonitor) (m : YouTubeMetrics)
    (data : VideoDetailsResponse) (now : String) :
    (check_stream_status mon m (Except.ok data) now).1.error_count
      = if (check_stream_status mon m (Except.ok data) now).2.is_live
        then m.error_count
        else m.error_count.inc mon.base_labels 1 := by
  unfold check_stream_status
  dsimp only
  split <;> rename_i h <;> simp [h]

/-- C8: a successful `check_stream_status` whose result is non-live
increments `stream_error_count` by exactly 1 and leaves `api_error_count`
unchanged; a successful invocation whose result is live increments
neither. -/
theorem C8_offline_counts_as_error (mon : YouTubeMonitor)
    (m : YouTubeMetrics) (data : VideoDetailsResponse) (now : String) :
    ((check_stream_status mon m (Except.ok data) now).2.is_live = false →
      (check_stream_status mon m (Except.ok data) now).1.error_count.cval
          mon.base_labels = m.error_count.cval mon.base_labels + 1 ∧
      (check_stream_status mon m (Except.ok data) now).1.api_errors
        = m.api_errors) ∧
    ((check_stream_status mon m (Except.ok data) now).2.is_live = true →
      (check_stream_status mon m (Except.ok data) now).1.error_count
        = m.error_count ∧
      (check_stream_status mon m (Except.ok data) now).1.api_errors
        = m.api_errors) := by
  constructor
  · intro h
    refine ⟨?_, check_ok_api_errors mon m data now⟩
    rw [check_ok_error_count, h]
    simp [SeriesMap.cval_inc_self]
  · intro h
    refine ⟨?_, check_ok_api_errors mon m data now⟩
    rw [check_ok_error_count, h]
    simp

/-- Witness for C8 at a concrete non-live response. -/
theorem C8_offline_counts_as_error_witness :
    (check_stream_status ⟨"c", "v", "s", "n", "Production"⟩
        YouTubeMetrics.empty
        (Except.ok ⟨[⟨some ⟨some "none", some "t"⟩, none⟩]⟩) "ts").2.is_live
      = false ∧
    (check_stream_status ⟨"c", "v", "s", "n", "Production"⟩
        YouTubeMetrics.empty
        (Except.ok ⟨[⟨some ⟨some "none", some "t"⟩, none⟩]⟩)
        "ts").1.error_count.cval
        (YouTubeMonitor.base_labels ⟨"c", "v", "s", "n", "Production"⟩)
      = YouTubeMetrics.empty.error_count.cval
        (YouTubeMonitor.base_labels ⟨"c", "v", "s", "n", "Production"⟩) + 1 :=
  ⟨by decide,
    ((C8_offline_counts_as_error ⟨"c", "v", "s", "n", "Production"⟩
      YouTubeMetrics.empty ⟨[⟨some ⟨some "none", some "t"⟩, none⟩]⟩
      "ts").1 (by decide)).1⟩

theorem register_stream_counter_mono (m : YouTubeMetrics)
    (cid vid sname cname env : String) (l : BaseLabels) :
    m.check_count.cval l
        ≤ (m.register_stream cid vid sname cname env).check_count.cval l ∧
    m.error_count.cval l
        ≤ (m.register_stream cid vid sname cname env).error_count.cval l ∧
    m.api_errors.cval l
        ≤ (m.register_stream cid vid sname cname env).api_errors.cval l := by
  unfold YouTubeMetrics.register_stream YouTubeMetrics.initialize_counters
  dsimp only
  split
  · exact ⟨le_refl _, le_refl _, le_refl _⟩
  · exact ⟨SeriesMap.cval_le_cval_inc _ _ _ _,
      SeriesMap.cval_le_cval_inc _ _ _ _,
      SeriesMap.cval_le_cval_inc _ _ _ _⟩

theorem check_stream_status_counter_mono (mon : YouTubeMonitor)
    (m : YouTubeMetrics) (api : Except Unit VideoDetailsResponse)
    (now : String) (l : BaseLabels) :
    m.check_count.cval l
        ≤ (check_stream_status mon m api now).1.check_count.cval l ∧
    m.error_count.cval l
        ≤ (check_stream_status mon m api now).1.error_count.cval l ∧
    m.api_errors.cval l
        ≤ (check_stream_status mon m api now).1.api_errors.cval l := by
  cases api with
  | error e =>
    exact ⟨SeriesMap.cval_le_cval_inc _ _ _ _,
      SeriesMap.cval_le_cval_inc _ _ _ _,
      SeriesMap.cval_le_cval_inc _ _ _ _⟩
  | ok data =>
    refine ⟨?_, ?_, ?_⟩
    · rw [check_stream_status_check_count]
      exact SeriesMap.cval_le_cval_inc _ _ _ _
    · rw [check_ok_error_count]
      split
      · exact le_refl _
      · exact SeriesMap.cval_le_cval_inc _ _ _ _
    · rw [check_ok_api_errors]

theorem get_video_engagement_counter_mono (mon : YouTubeMonitor)
    (m : YouTubeMetrics) (api : Except Unit EngagementResponse)
    (l : BaseLabels) :
    m.check_count.cval l
        ≤ (get_video_engagement mon m api).1.check_count.cval l ∧
    m.error_count.cval l
        ≤ (get_video_engagement mon m api).1.error_count.cval l ∧
    m.api_errors.cval l
        ≤ (get_video_engagement mon m api).1.api_errors.cval l := by
  cases api with
  | error e =>
    exact ⟨le_refl _, le_refl _, SeriesMap.cval_le_cval_inc _ _ _ _⟩
  | ok data =>
    unfold get_video_engagement
    dsimp only
    cases data.items with
    | nil => exact ⟨le_refl _, le_refl _, le_refl _⟩
    | cons stats rest =>
      dsimp only
      split <;> exact ⟨le_refl _, le_refl _, le_refl _⟩

theorem get_channel_info_counter_mono (mon : YouTubeMonitor)
    (m : YouTubeMetrics) (api : Except Unit ChannelResponse)
    (now : String) (l : BaseLabels) :
    m.check_count.cval l
        ≤ (get_channel_info mon m api now).1.check_count.cval l ∧
    m.error_count.cval l
        ≤ (get_channel_info mon m api now).1.error_count.cval l ∧
    m.api_errors.cval l
        ≤ (get_channel_info mon m api now).1.api_errors.cval l := by
  cases api with
  | error e =>
    exact ⟨le_refl _, le_refl _, SeriesMap.cval_le_cval_inc _ _ _ _⟩
  | ok data =>
    unfold get_channel_info
    dsimp only
    cases data.items with
    | nil => exact ⟨le_refl _, le_refl _, le_refl _⟩
    | cons item rest => exact ⟨le_refl _, le_refl _, le_refl _⟩

theorem applyOp_counter_mono (m : YouTubeMetrics) (op : RegistryOp)
    (l : BaseLabels) :
    m.check_count.cval l ≤ (applyOp m op).check_count.cval l ∧
    m.error_count.cval l ≤ (applyOp m op).error_count.cval l ∧
    m.api_errors.cval l ≤ (applyOp m op).api_errors.cval l := by
  cases op with
  | register cid vid sname cname env =>
    exact register_stream_counter_mono m cid vid sname cname env l
  | check mon api now => exact check_stream_status_counter_mono mon m api now l
  | engagement mon api => exact get_video_engagement_counter_mono mon m api l
  | channelInfo mon api now => exact get_channel_info_counter_mono mon m api now l

/-- C6: the three counters (`stream_check_count`, `stream_error_count`,
`api_error_count`) are monotonic — over any sequence of `register_stream`,
`check_stream_status`, `get_video_engagement` and `get_channel_info`
operations, no counter series' value ever decreases. -/
theorem C6_counter_monotonic (m : YouTubeMetrics) (ops : List RegistryOp)
    (l : BaseLabels) :
    m.check_count.cval l ≤ (applyOps m ops).check_count.cval l ∧
    m.error_count.cval l ≤ (applyOps m ops).error_count.cval l ∧
    m.api_errors.cval l ≤ (applyOps m ops).api_errors.cval l := by
  induction ops generalizing m with
  | nil => exact ⟨le_refl _, le_refl _, le_refl _⟩
  | cons op rest ih =>
    have h1 := applyOp_counter_mono m op l
    have h2 := ih (applyOp m op)
    exact ⟨le_trans h1.1 h2.1, le_trans h1.2.1 h2.2.1,
      le_trans h1.2.2 h2.2.2⟩

/-- C3: `get_video_engagement` leaves the `engagement_rate` series at its
previous value when the parsed view count is 0, and sets it to
`likes / views * 100` when the view count is positive. -/
theorem C3_engagement_guard (mon : YouTubeMonitor) (m : YouTubeMetrics)
    (stats : VideoStatistics) (rest : List VideoStatistics) :
    (stats.viewCount.getD 0 = 0 →
      (get_video_engagement mon m
          (Except.ok ⟨stats :: rest⟩)).1.engagement_rate
        = m.engagement_rate) ∧
    (0 < stats.viewCount.getD 0 →
      (get_video_engagement mon m
          (Except.ok ⟨stats :: rest⟩)).1.engagement_rate.get mon.base_labels
        = some (((stats.likeCount.getD 0 : ℚ)
            / (stats.viewCount.getD 0 : ℚ)) * 100)) := by
  constructor
  · intro h
    unfold get_video_engagement
    simp [h]
  · intro h
    unfold get_video_engagement
    simp [Nat.pos_iff_ne_zero.mp h, Nat.pos_iff_ne_zero,
      SeriesMap.get_set_self, h]

/-- Witness for C3: views=200, likes=10 yields `engagement_rate = 5`. -/
theorem C3_engagement_guard_witness :
    (get_video_engagement ⟨"c", "v", "s", "n", "Production"⟩
        YouTubeMetrics.empty
        (Except.ok ⟨[⟨some 200, some 10, some 3, some 0⟩]⟩)).1.engagement_rate.get
        (YouTubeMonitor.base_labels ⟨"c", "v", "s", "n", "Production"⟩)
      = some 5 := by
  have h := (C3_engagement_guard ⟨"c", "v", "s", "n", "Production"⟩
    YouTubeMetrics.empty ⟨some 200, some 10, some 3, some 0⟩ []).2
    (by decide)
  rw [h]
  norm_num

/-- C5 counterexample: with a prior `video_views` value of 7, a well-formed
zero-item response leaves the gauge at 7 — the engagement fields do not
"default to zero" as the claim states. -/
theorem C5_counterexample :
    ¬ ((get_video_engagement ⟨"c", "v", "s", "n", "Production"⟩
        { YouTubeMetrics.empty with
            video_views := [(⟨"c", "s", "v", "n"⟩, (7 : ℚ))] }
        (Except.ok ⟨[]⟩)).1.video_views.get ⟨"c", "s", "v", "n"⟩
      = some 0) := by decide

/-- C5 (amended): a well-formed zero-item response in
`get_video_engagement` is treated as data absence, not an error: no error
counter is incremented and no engagement field is written — the registry
state is left entirely unchanged (so gauges keep their previous values)
and the call returns no data. -/
theorem C5_empty_items_no_op (mon : YouTubeMonitor) (m : YouTubeMetrics) :
    get_video_engagement mon m (Except.ok ⟨[]⟩) = (m, none) := rfl

theorem register_stream_mem_after (m : YouTubeMetrics)
    (cid vid sname cname env : String) :
    (cid ++ "_" ++ vid ++ "_" ++ sname)
      ∈ (m.register_stream cid vid sname cname env).registered_streams := by
  unfold YouTubeMetrics.register_stream
  dsimp only
  split
  · assumption
  · exact List.mem_cons_self _ _

theorem register_stream_noop_of_mem (m : YouTubeMetrics)
    (cid vid sname cname env : String)
    (h : (cid ++ "_" ++ vid ++ "_" ++ sname) ∈ m.registered_streams) :
    m.register_stream cid vid sname cname env = m := by
  unfold YouTubeMetrics.register_stream
  dsimp only
  rw [if_pos h]

/-- C4: `register_stream` is idempotent.  A first call for an unregistered
entity key zeroes every gauge series of the entity, makes every counter
series visible at 0, and records the key; a repeated call is then a
no-op, leaving every series at its post-first-call value. -/
theorem C4_register_idempotent (m : YouTubeMetrics)
    (cid vid sname cname env : String)
    (hkey : (cid ++ "_" ++ vid ++ "_" ++ sname) ∉ m.registered_streams)
    (hc : m.check_count.get ⟨cid, sname, vid, cname⟩ = none)
    (he : m.error_count.get ⟨cid, sname, vid, cname⟩ = none)
    (ha : m.api_errors.get ⟨cid, sname, vid, cname⟩ = none) :
    (m.register_stream cid vid sname cname env).stream_status.get
        ⟨cid, sname, vid, cname, env⟩ = some 0 ∧
    (m.register_stream cid vid sname cname env).stream_viewers.get
        ⟨cid, sname, vid, cname⟩ = some 0 ∧
    (m.register_stream cid vid sname cname env).video_views.get
        ⟨cid, sname, vid, cname⟩ = some 0 ∧
    (m.register_stream cid vid sname cname env).video_likes.get
        ⟨cid, sname, vid, cname⟩ = some 0 ∧
    (m.register_stream cid vid sname cname env).video_comments.get
        ⟨cid, sname, vid, cname⟩ = some 0 ∧
    (m.register_stream cid vid sname cname env).video_favorites.get
        ⟨cid, sname, vid, cname⟩ = some 0 ∧
    (m.register_stream cid vid sname cname env).engagement_rate.get
        ⟨cid, sname, vid, cname⟩ = some 0 ∧
    (m.register_stream cid vid sname cname env).channel_subscribers.get
        ⟨cid, sname, cname⟩ = some 0 ∧
    (m.register_stream cid vid sname cname env).check_count.get
        ⟨cid, sname, vid, cname⟩ = some 0 ∧
    (m.register_stream cid vid sname cname env).error_count.get
        ⟨cid, sname, vid, cname⟩ = some 0 ∧
    (m.register_stream cid vid sname cname env).api_errors.get
        ⟨cid, sname, vid, cname⟩ = some 0 ∧
    (cid ++ "_" ++ vid ++ "_" ++ sname)
      ∈ (m.register_stream cid vid sname cname env).registered_streams ∧
    ∀ cname2 env2 : String,
      (m.register_stream cid vid sname cname env).register_stream
          cid vid sname cname2 env2
        = m.register_stream cid vid sname cname env := by
  refine ⟨?_, ?_, ?_, ?_, ?_, ?_, ?_, ?_, ?_, ?_, ?_,
    register_stream_mem_after m cid vid sname cname env,
    fun cname2 env2 => register_stream_noop_of_mem _ cid vid sname cname2 env2
      (register_stream_mem_after m cid vid sname cname env)⟩ <;>
  · unfold YouTubeMetrics.register_stream YouTubeMetrics.initialize_counters
    dsimp only
    rw [if_neg hkey]
    simp [SeriesMap.inc, SeriesMap.cval, hc, he, ha, SeriesMap.get_set_self]

/-- Witness for C4 on the empty registry. -/
theorem C4_register_idempotent_witness :
    (YouTubeMetrics.empty.register_stream "c" "v" "s" "n"
        "Production").register_stream "c" "v" "s" "n" "Production"
      = YouTubeMetrics.empty.register_stream "c" "v" "s" "n" "Production" :=
  (C4_register_idempotent YouTubeMetrics.empty "c" "v" "s" "n" "Production"
    (by decide) (by decide) (by decide)
    (by decide)).2.2.2.2.2.2.2.2.2.2.2.2 "n" "Production"

/-- C10: the registration key is built only from `channel_id`, `video_id`
and `stream_name`, so a repeated `register_stream` with the same key but a
different `channel_name` or `environment` leaves the entire registry state
unchanged — in particular, no series labelled with the new values is
created or zero-initialised. -/
theorem C10_rereg_different_labels_noop (m : YouTubeMetrics)
    (cid vid sname cname' env' : String)
    (h : (cid ++ "_" ++ vid ++ "_" ++ sname) ∈ m.registered_streams) :
    m.register_stream cid vid sname cname' env' = m :=
  register_stream_noop_of_mem m cid vid sname cname' env' h

/-- Witness for C10: re-registering under a new channel name and
environment changes nothing. -/
theorem C10_rereg_different_labels_noop_witness :
    { YouTubeMetrics.empty with registered_streams := ["c_v_s"]
        }.register_stream "c" "v" "s" "otherName" "Test"
      = { YouTubeMetrics.empty with registered_streams := ["c_v_s"] } :=
  C10_rereg_different_labels_noop _ "c" "v" "s" "otherName" "Test"
    (by decide)

/-- C7: over a trace of `monitor_loop` ticks 0..10 with
`engagement_interval = 5` and `channel_interval = 10`,
`check_stream_status` fires on every tick, `get_video_engagement` fires
exactly at ticks 0, 5 and 10, and `get_channel_info` fires exactly at
ticks 0 and 10 — both sub-operations firing immediately on tick 0. -/
theorem C7_cadence :
    ((monitorTrace 11 0).map Prod.fst = List.range 11) ∧
    (((monitorTrace 11 0).all fun t => t.2.contains SubOp.checkStatus)
      = true) ∧
    (((monitorTrace 11 0).filter fun t =>
        t.2.contains SubOp.engagement).map Prod.fst = [0, 5, 10]) ∧
    (((monitorTrace 11 0).filter fun t =>
        t.2.contains SubOp.channelInfo).map Prod.fst = [0, 10]) := by
  decide

theorem truncateDescription_length (s : String) :
    (truncateDescription s).length = min 100 s.length + 3 := by
  rw [truncateDescription, String.length_append, String.take_eq]
  show (s.data.take 100).length + 3 = min 100 s.data.length + 3
  rw [List.length_take]

/-- C9: on a successful `get_channel_info`, the `description` field of the
`channel_info` record is always the first 100 characters of the
API-returned description with the literal `"..."` appended — also when
the description is 100 characters or shorter — and therefore never
exceeds 103 characters. -/
theorem C9_description_truncation (mon : YouTubeMonitor)
    (m : YouTubeMetrics) (item : ChannelItem) (rest : List ChannelItem)
    (now : String) :
    (get_channel_info mon m (Except.ok ⟨item :: rest⟩) now).1.channel_info.get
        ⟨mon.channel_id, mon.channel_name⟩
      = some [("title", item.title.getD ""),
          ("description",
            (item.description.getD "").take 100 ++ "..."),
          ("subscriber_count", toString (item.subscriberCount.getD 0)),
          ("last_updated", now)] ∧
    (truncateDescription (item.description.getD "")).length ≤ 103 := by
  constructor
  · unfold get_channel_info truncateDescription
    dsimp only
    exact SeriesMap.get_set_self _ _ _
  · rw [truncateDescription_length]
    omega
